import Mathlib

/-!
Verification development for the Inventra multi-agent query router.

The Python sources under src/agents and src/tools are shallowly embedded:
request texts and rendered text blobs are lists of characters, stage
functions become total Lean functions over explicit inputs, and the
try/except blocks of the stage nodes are modelled by an optional injected
exception message (none means the body ran without raising).  Text is
assumed ASCII where Python string methods (lower, upper, title, strip)
are modelled, which matches every literal the program manipulates.
-/

namespace Inventra

/-- Characters of a string literal, the representation of Python text. -/
def chars (s : String) : List Char := s.data

/-- Python text.lower() for ASCII text. -/
def pyLower (s : List Char) : List Char := s.map Char.toLower

/-- Python text.upper() for ASCII text. -/
def pyUpper (s : List Char) : List Char := s.map Char.toUpper

/-- Python str.upper() on a Lean String (used for routing labels). -/
def pyUpperS (s : String) : String := String.mk (s.data.map Char.toUpper)

/-- Python membership test `needle in hay` on text (substring search). -/
def pyIn (needle : List Char) : List Char → Bool
  | [] => needle.isEmpty
  | c :: t => needle.isPrefixOf (c :: t) || pyIn needle t

/-- Python `any(kw in text for kw in kws)`. -/
def anyKw (kws : List (List Char)) (text : List Char) : Bool :=
  kws.any (fun kw => pyIn kw text)

theorem isPrefixOf_eq_true_iff {l₁ l₂ : List Char} :
    l₁.isPrefixOf l₂ = true ↔ l₁ <+: l₂ := by
  induction l₁ generalizing l₂ with
  | nil => simp [List.isPrefixOf]
  | cons a as ih =>
    cases l₂ with
    | nil => simp [List.isPrefixOf]
    | cons b bs => simp [List.isPrefixOf, ih, List.cons_prefix_cons]

theorem pyIn_iff {n h : List Char} : pyIn n h = true ↔ n <:+: h := by
  induction h with
  | nil =>
    cases n <;> simp [pyIn, List.isEmpty]
  | cons c t ih =>
    simp only [pyIn, Bool.or_eq_true, ih, isPrefixOf_eq_true_iff]
    exact (List.infix_cons_iff : n <:+: c :: t ↔ _).symm

instance instDecInfixChars (n h : List Char) : Decidable (n <:+: h) :=
  decidable_of_iff (pyIn n h = true) pyIn_iff

theorem anyKw_iff {kws : List (List Char)} {text : List Char} :
    anyKw kws text = true ↔ ∃ kw ∈ kws, kw <:+: text := by
  unfold anyKw
  rw [List.any_eq_true]
  simp only [pyIn_iff]

theorem inf_app_left {α : Type} {l m : List α} (x : List α) (h : l <:+: m) :
    l <:+: x ++ m := by
  obtain ⟨s, t, e⟩ := h
  exact ⟨x ++ s, t, by rw [← e]; simp [List.append_assoc]⟩

theorem inf_app_right {α : Type} {l m : List α} (x : List α) (h : l <:+: m) :
    l <:+: m ++ x := by
  obtain ⟨s, t, e⟩ := h
  exact ⟨s, t ++ x, by rw [← e]; simp [List.append_assoc]⟩

/-!
### src/agents/graph.py — entry classification and routing
-/

/-- graph.py line 70: RECURSION_LIMIT := int(os.getenv("RECURSION_LIMIT", "25")),
modelled at its default value (environment variable unset). -/
def RECURSION_LIMIT : Nat := 25

/-- graph.py line 104: the weather keyword list of start_node. -/
def weather_keywords : List (List Char) :=
  [chars "weather", chars "forecast", chars "rain", chars "monsoon",
   chars "temperature", chars "climate", chars "hot", chars "cold"]

/-- graph.py line 110: the decision keyword list of start_node. -/
def decision_keywords : List (List Char) :=
  [chars "recommend", chars "reorder", chars "order", chars "purchase",
   chars "ticket", chars "action", chars "should i"]

/-- graph.py start_node, lines 100-117: the value it stores into the
state field `next` (the database initialisation and printing are side
effects with no influence on the routing result). -/
def start_node_next (query : List Char) : String :=
  let q := pyLower query
  if anyKw weather_keywords q then "WEATHER"
  else if anyKw decision_keywords q then "DATA"
  else "DATA"

/-- graph.py route_from_start (lines 225-233): `state.get("next", "DATA")`
is the argument; `none` models a state without the field. -/
def route_from_start (nxt : Option String) : String :=
  let next_agent := nxt.getD "DATA"
  if next_agent = "WEATHER" then "weather"
  else if next_agent = "DECISION" then "decision"
  else "data"

/-- graph.py route_from_data (lines 141-155). -/
def route_from_data (nxt : Option String) : String :=
  let next_agent := nxt.getD "END"
  if next_agent = "WEATHER" then "weather"
  else if next_agent = "DECISION" then "decision"
  else "end"

/-- graph.py route_from_weather (lines 158-169). -/
def route_from_weather (nxt : Option String) : String :=
  let next_agent := nxt.getD "DECISION"
  if next_agent = "DECISION" then "decision" else "end"

/-- graph.py route_from_decision (lines 172-178): constant "end". -/
def route_from_decision (_nxt : Option String) : String := "end"

/-- The nodes of the compiled LangGraph workflow (build_graph). -/
inductive GNode
  | start
  | data
  | weather
  | decision
  | endN
deriving DecidableEq, Repr

/-- build_graph, lines 235-270: the edge relation of the compiled graph.
From start/data/weather the conditional-edge dictionaries map the label
returned by the corresponding router to a node; the routers provably only
return keys of those dictionaries.  From decision the graph has the
unconditional edge add_edge("decision", "end").  The end node is the
finish point and maps to itself. -/
def graph_step (n : GNode) (nxt : Option String) : GNode :=
  match n with
  | .start =>
    match route_from_start nxt with
    | "weather" => .weather
    | "decision" => .decision
    | _ => .data
  | .data =>
    match route_from_data nxt with
    | "weather" => .weather
    | "decision" => .decision
    | _ => .endN
  | .weather =>
    match route_from_weather nxt with
    | "decision" => .decision
    | _ => .endN
  | .decision => .endN
  | .endN => .endN

/-!
### src/agents/supervisor.py — route validation
-/

/-- supervisor.py line 55. -/
def VALID_ROUTES : List String := ["DATA", "WEATHER", "DECISION", "END"]

/-- supervisor.py parse_routing_response, lines 111-114: after a routing
response decodes to an object carrying a `next` value, the value is
uppercased and any value outside VALID_ROUTES is replaced by "DATA". -/
def normalize_route (nxt : String) : String :=
  let u := pyUpperS nxt
  if u ∈ VALID_ROUTES then u else "DATA"

/-- supervisor.py parse_routing_response, lines 121-131: the fallback of
the JSONDecodeError branch, searching the uppercased raw text. -/
def parse_fallback_route (text : List Char) : String :=
  let tu := pyUpper text
  if pyIn (chars "END") tu then "END"
  else if pyIn (chars "WEATHER") tu then "WEATHER"
  else if pyIn (chars "DECISION") tu then "DECISION"
  else "DATA"

/-!
### src/agents/data_agent.py — Data stage

The db tools are external collaborators (they read a SQLite store); their
rendered outputs enter the stage as parameters: `low_stock` for
get_low_stock_items, `by_category` for get_inventory_by_category (a
function of the requested category), `weather_sensitive` for
get_weather_sensitive_products.  The optional `exc` argument injects an
exception raised inside the try block (none = normal completion).
-/

/-- Python str.title() for ASCII text: a letter is uppercased when the
preceding character is not a letter, lowercased otherwise. -/
def pyTitleGo : Bool → List Char → List Char
  | _, [] => []
  | prevAlpha, c :: t =>
    (if c.isAlpha then (if prevAlpha then c.toLower else c.toUpper) else c)
      :: pyTitleGo c.isAlpha t

/-- Python str.title() for ASCII text. -/
def pyTitle (s : List Char) : List Char := pyTitleGo false s

/-- Python "sep".join(parts). -/
def joinSep (sep : List Char) : List (List Char) → List Char
  | [] => []
  | [x] => x
  | x :: y :: t => x ++ sep ++ joinSep sep (y :: t)

/-- data_agent.py line 90: the category keyword list. -/
def data_categories : List (List Char) :=
  [chars "umbrella", chars "raincoat", chars "summer", chars "winter",
   chars "electronic", chars "home"]

/-- data_agent.py line 119: keywords meaning the query needs
recommendations. -/
def data_rec_keywords : List (List Char) :=
  [chars "recommend", chars "reorder", chars "order", chars "action"]

/-- data_agent.py line 120: keywords meaning the query asks about
weather. -/
def data_weather_keywords : List (List Char) :=
  [chars "weather", chars "forecast", chars "rain"]

/-- data_agent.py lines 82-105: the (title, data) result sections, in
order: always the low stock section; then the section of the first
category keyword contained in the lowercased query (the loop breaks after
the first hit); then the weather-sensitive section when the query
mentions weather, rain or monsoon. -/
def data_sections (uq low_stock : List Char) (by_category : List Char → List Char)
    (weather_sensitive : List Char) : List (List Char × List Char) :=
  let base := [(chars "Low Stock Items", low_stock)]
  let withCat :=
    match data_categories.find? (fun c => pyIn c uq) with
    | some c => base ++ [(pyTitle c ++ chars " Inventory", by_category c)]
    | none => base
  if pyIn (chars "weather") uq || pyIn (chars "rain") uq || pyIn (chars "monsoon") uq then
    withCat ++ [(chars "Weather-Sensitive Products", weather_sensitive)]
  else withCat

/-- data_agent.py lines 103-107: the compiled output blob. -/
def data_output (uq low_stock : List Char) (by_category : List Char → List Char)
    (weather_sensitive : List Char) : List Char :=
  joinSep (chars "\n\n")
    ((data_sections uq low_stock by_category weather_sensitive).map
      (fun s => chars "## " ++ s.1 ++ chars "\n" ++ s.2))

/-- The state update returned by the Data stage.  The inventory_context
dictionary is flattened into the fields analysis / has_low_stock /
has_weather_items; on the error path the code stores only an error key,
which downstream readers access with .get and a False/empty default, so
the flags are false and the analysis empty there. -/
structure DataOut where
  message : List Char
  analysis : List Char
  has_low_stock : Bool
  has_weather_items : Bool
  next : String
  error : Option (List Char)
deriving Repr, DecidableEq

/-- data_agent.py simple_data_agent_node (lines 62-146). -/
def simple_data_agent_node (query low_stock : List Char)
    (by_category : List Char → List Char) (weather_sensitive : List Char)
    (exc : Option (List Char)) : DataOut :=
  let uq := pyLower query
  match exc with
  | some e =>
    { message := chars "[Data Agent] Error: " ++ e
      analysis := []
      has_low_stock := false
      has_weather_items := false
      next := "END"
      error := some (chars "Error: " ++ e) }
  | none =>
    let output := data_output uq low_stock by_category weather_sensitive
    let has_low_stock :=
      pyIn (chars "low") (pyLower output) || pyIn (chars "below") (pyLower output)
        || pyIn (chars "LOW") output
    let has_weather_items :=
      pyIn (chars "weather") (pyLower output) || pyIn (chars "sensitive") (pyLower output)
    let query_needs_recommendations := anyKw data_rec_keywords uq
    let query_asks_weather := anyKw data_weather_keywords uq
    let next_agent :=
      if query_asks_weather && has_weather_items then "WEATHER"
      else if query_needs_recommendations && has_low_stock then "DECISION"
      else "END"
    { message := chars "[Data Agent]\n" ++ output
      analysis := output
      has_low_stock := has_low_stock
      has_weather_items := has_weather_items
      next := next_agent
      error := none }

/-!
### src/agents/weather_agent.py — Weather stage

The two weather tools are invoked with the resolved region and days=7;
their rendered outputs enter as the parameters `forecast` and `impact`
(get_weather_forecast is embedded further below as
get_weather_forecast_text; get_weather_impact averages floating point
demand multipliers and stays parametric).
-/

/-- weather_agent.py line 67: the known city list. -/
def weather_cities : List (List Char) :=
  [chars "mumbai", chars "delhi", chars "bengaluru", chars "bangalore",
   chars "chennai", chars "kolkata", chars "hyderabad"]

/-- weather_agent.py extract_region_from_query (lines 54-72): first city
contained in the lowercased query, with bangalore aliased to bengaluru,
defaulting to DEFAULT_REGION = "mumbai". -/
def extract_region_from_query (query : List Char) : List Char :=
  let ql := pyLower query
  match weather_cities.find? (fun c => pyIn c ql) with
  | some c => if c = chars "bangalore" then chars "bengaluru" else c
  | none => chars "mumbai"

/-- weather_agent.py line 92: `state.get("region") or
extract_region_from_query(user_query)` — a missing or empty (falsy)
region field falls back to extraction from the query. -/
def resolve_region (region : Option (List Char)) (query : List Char) : List Char :=
  match region with
  | some r => if r.isEmpty then extract_region_from_query query else r
  | none => extract_region_from_query query

/-- weather_agent.py line 118: keywords sending the run on to the
Decision stage. -/
def weather_decision_keywords : List (List Char) :=
  [chars "recommend", chars "reorder", chars "order", chars "action",
   chars "what should"]

/-- The state update returned by the Weather stage; the weather_context
dictionary is flattened into analysis / region / flag fields, with the
error path leaving the flags at their .get defaults as in DataOut. -/
structure WeatherOut where
  message : List Char
  analysis : List Char
  region : Option (List Char)
  has_rain : Bool
  has_heat : Bool
  has_cold : Bool
  high_impact : Bool
  next : String
  error : Option (List Char)
deriving Repr, DecidableEq

/-- weather_agent.py simple_weather_agent_node (lines 79-135). -/
def simple_weather_agent_node (query : List Char) (region : Option (List Char))
    (forecast impact : List Char) (exc : Option (List Char)) : WeatherOut :=
  let reg := resolve_region region query
  match exc with
  | some e =>
    { message := chars "[Weather Agent] Error: " ++ e
      analysis := []
      region := none
      has_rain := false
      has_heat := false
      has_cold := false
      high_impact := false
      next := "DECISION"
      error := some (chars "Error: " ++ e) }
  | none =>
    let output := forecast ++ chars "\n\n" ++ impact
    let needs_decision := anyKw weather_decision_keywords (pyLower query)
    { message := chars "[Weather Agent]\n" ++ output
      analysis := output
      region := some reg
      has_rain := pyIn (chars "rain") (pyLower output)
      has_heat := pyIn (chars "hot") (pyLower output) || pyIn (chars "heat") (pyLower output)
      has_cold := pyIn (chars "cold") (pyLower output)
      high_impact := pyIn (chars "HIGH DEMAND") output || pyIn (chars "2.") output
      next := if needs_decision then "DECISION" else "END"
      error := none }

/-!
### src/agents/decision_agent.py — Decision stage

Ticket creation calls become values of `TicketCall` recording the invoke
arguments (the tools append to an external in-memory log and return a
confirmation string containing a fresh uuid and timestamp, so the
rendered summary text of this stage is not modelled; no claim concerns
it).  The regex scan re.findall applied at line 94 is embedded below as
`re_findall_sku`, including the backtracking of the greedy whitespace
group when the pattern reaches the end of the text.
-/

/-- Character class [A-Z] of the regex. -/
def isUpperAZ (c : Char) : Bool := 'A' ≤ c && c ≤ 'Z'

/-- Character class \d of the regex (ASCII digits). -/
def isDigit09 (c : Char) : Bool := '0' ≤ c && c ≤ '9'

/-- Character class \s of the regex and the Python str.strip default
(ASCII whitespace: space, tab, newline, carriage return, vertical tab,
form feed). -/
def isPySpace (c : Char) : Bool :=
  c = ' ' || c = '\t' || c = '\n' || c = '\r' || c = '\x0b' || c = '\x0c'

/-- Python str.strip() for ASCII text. -/
def pyStrip (s : List Char) : List Char :=
  ((s.dropWhile isPySpace).reverse.dropWhile isPySpace).reverse

/-- Backtracking step of `\s*([^\n]+)` when the greedy whitespace run
reaches the end of the text: walking the whitespace run backwards (input
is the run reversed), the group gives back newlines until it can hand a
non-newline whitespace character to `[^\n]+`; that single character
becomes the description and the given-back newlines stay unconsumed.
Returns that character and the count of given-back newlines. -/
def backWs : List Char → Option (Char × Nat)
  | [] => none
  | c :: rest =>
    if c = '\n' then (backWs rest).map (fun p => (p.1, p.2 + 1)) else some (c, 0)

/-- Matcher for the prefix `([A-Z]+_\d+):` of the regex at the current
position: greedy uppercase run, underscore, greedy digit run, colon.  No
backtracking can help here because an underscore is not in [A-Z] and a
colon is not in \d.  Returns the first capture group and the text after
the colon. -/
def scanIdent (s : List Char) : Option (List Char × List Char) :=
  let up := s.takeWhile isUpperAZ
  let s1 := s.dropWhile isUpperAZ
  if up.isEmpty then none
  else
    match s1 with
    | '_' :: s2 =>
      let ds := s2.takeWhile isDigit09
      let s3 := s2.dropWhile isDigit09
      if ds.isEmpty then none
      else
        match s3 with
        | ':' :: s4 => some (up ++ '_' :: ds, s4)
        | _ => none
    | _ => none

/-- Matcher for the suffix `\s*([^\n]+)` of the regex: greedy whitespace
(which may cross newlines), then at least one non-newline character,
backtracking into the whitespace run when the text ends.  Returns the
second capture group and the unconsumed text. -/
def scanDesc (s4 : List Char) : Option (List Char × List Char) :=
  let ws := s4.takeWhile isPySpace
  let s5 := s4.dropWhile isPySpace
  match s5 with
  | [] => (backWs ws.reverse).map (fun p => ([p.1], List.replicate p.2 '\n'))
  | _ :: _ =>
    some (s5.takeWhile (fun ch => ch ≠ '\n'), s5.dropWhile (fun ch => ch ≠ '\n'))

/-- Match of the full pattern `([A-Z]+_\d+):\s*([^\n]+)` at the current
position: the two capture groups and the text after the match. -/
def pMatchAt (s : List Char) : Option ((List Char × List Char) × List Char) :=
  match scanIdent s with
  | none => none
  | some (ident, s4) =>
    match scanDesc s4 with
    | none => none
    | some (d, rest) => some ((ident, d), rest)

theorem dropWhile_length_le (p : Char → Bool) (l : List Char) :
    (l.dropWhile p).length ≤ l.length :=
  (List.dropWhile_sublist p).length_le

theorem dropWhile_length_lt {p : Char → Bool} {l : List Char}
    (h : l.takeWhile p ≠ []) : (l.dropWhile p).length < l.length := by
  have hsplit : l.takeWhile p ++ l.dropWhile p = l :=
    List.takeWhile_append_dropWhile p l
  conv_rhs => rw [← hsplit]
  rw [List.length_append]
  have hp : 0 < (l.takeWhile p).length := List.length_pos.mpr h
  omega

theorem backWs_lt : ∀ {l : List Char} {c : Char} {n : Nat},
    backWs l = some (c, n) → n < l.length := by
  intro l
  induction l with
  | nil => intro c n h; simp [backWs] at h
  | cons a t ih =>
    intro c n h
    unfold backWs at h
    by_cases ha : a = '\n'
    · rw [if_pos ha, Option.map_eq_some'] at h
      obtain ⟨p, hp, he⟩ := h
      have := ih (show backWs t = some (p.1, p.2) from hp)
      have hn : n = p.2 + 1 := by
        have := congrArg Prod.snd he
        simpa using this.symm
      simp only [List.length_cons]
      omega
    · rw [if_neg ha] at h
      have hn : n = 0 := by
        have := congrArg Prod.snd (Option.some.inj h)
        simpa using this.symm
      simp [hn]

theorem scanIdent_rest_lt {s ident s4 : List Char}
    (h : scanIdent s = some (ident, s4)) : s4.length < s.length := by
  simp only [scanIdent] at h
  split at h
  · exact absurd h (by simp)
  · rename_i hup
    split at h
    · rename_i s2 heq1
      split at h
      · exact absurd h (by simp)
      · rename_i hds
        split at h
        · rename_i s4' heq2
          injection h with hpair
          cases hpair
          have h1 : (s.dropWhile isUpperAZ).length < s.length :=
            dropWhile_length_lt (by simpa [List.isEmpty_iff] using hup)
          have h2 : (s2.dropWhile isDigit09).length <= s2.length :=
            dropWhile_length_le _ _
          rw [heq1] at h1
          rw [heq2] at h2
          simp only [List.length_cons] at h1 h2
          omega
        · exact absurd h (by simp)
    · exact absurd h (by simp)

theorem scanDesc_rest_le {s d rest : List Char}
    (h : scanDesc s = some (d, rest)) : rest.length <= s.length := by
  simp only [scanDesc] at h
  split at h
  · rw [Option.map_eq_some'] at h
    obtain ⟨p, hp, he⟩ := h
    have hn := backWs_lt hp
    rw [Prod.mk.injEq] at he
    obtain ⟨-, hr⟩ := he
    have hws : (s.takeWhile isPySpace).length <= s.length :=
      (List.takeWhile_sublist _).length_le
    rw [← hr]
    simp only [List.length_replicate, List.length_reverse] at hn ⊢
    omega
  · injection h with hpair
    rw [Prod.mk.injEq] at hpair
    obtain ⟨-, hr⟩ := hpair
    have h5 : (s.dropWhile isPySpace).length <= s.length := dropWhile_length_le _ _
    rw [← hr]
    exact le_trans (dropWhile_length_le _ _) h5

theorem pMatchAt_rest_lt {s : List Char} {g : List Char × List Char}
    {rest : List Char} (h : pMatchAt s = some (g, rest)) :
    rest.length < s.length := by
  simp only [pMatchAt] at h
  split at h
  · exact absurd h (by simp)
  · rename_i id0 s40 hi
    split at h
    · exact absurd h (by simp)
    · rename_i d0 r0 hd
      injection h with hpair
      rw [Prod.mk.injEq] at hpair
      obtain ⟨-, hr⟩ := hpair
      have h1 := scanIdent_rest_lt hi
      have h2 := scanDesc_rest_le hd
      rw [← hr]
      omega

/-- re.findall of the pattern over the whole text: scan left to right,
emitting the capture groups of each leftmost non-overlapping match and
resuming after it, advancing one character where no match starts. -/
def re_findall_sku : List Char → List (List Char × List Char)
  | [] => []
  | c :: t =>
    match h : pMatchAt (c :: t) with
    | some r => r.1 :: re_findall_sku r.2
    | none => re_findall_sku t
termination_by s => s.length
decreasing_by
  · exact pMatchAt_rest_lt h
  · simp

/-- decision_agent.py line 98: the weather-sensitive category keywords
checked against the lowercased inventory analysis. -/
def decision_weather_cats : List (List Char) :=
  [chars "umbrella", chars "raincoat", chars "summer", chars "winter"]

/-- Arguments of one create_reorder_ticket.invoke call
(decision_agent.py lines 106-113). -/
structure ReorderReq where
  sku_id : List Char
  sku_name : List Char
  quantity : Nat
  supplier_name : List Char
  reason : List Char
  priority : List Char
deriving Repr, DecidableEq

/-- One ticket-tool invocation performed by the Decision stage, in the
order the stage appends them to tickets_created: reorder tickets first,
then the rain alert (lines 120-128), then the heat alert
(lines 130-138). -/
inductive TicketCall
  | reorder (r : ReorderReq)
  | alertRain (region : List Char)
  | alertHeat (region : List Char)
deriving Repr, DecidableEq

/-- decision_agent.py lines 92-114: the reorder tickets created from the
inventory analysis blob.  The guard is Python `if has_low_stock and
inv_analysis` (an empty blob is falsy); the matches are the regex scan
truncated to five; the sku_name argument is the description group with
everything after its first newline removed (the group never contains a
newline, so this is the group itself), stripped, and cut to 50
characters. -/
def decision_reorders (has_low_stock high_impact : Bool) (inv_analysis : List Char) :
    List ReorderReq :=
  if has_low_stock && !inv_analysis.isEmpty then
    ((re_findall_sku inv_analysis).take 5).map (fun m =>
      let weather_priority :=
        high_impact && anyKw decision_weather_cats (pyLower inv_analysis)
      { sku_id := m.1
        sku_name := (pyStrip (m.2.takeWhile (fun ch => ch ≠ '\n'))).take 50
        quantity := 100
        supplier_name := chars "Default Supplier"
        reason :=
          if weather_priority then chars "Low stock + weather-driven demand expected"
          else chars "Below reorder point"
        priority := if weather_priority then chars "high" else chars "medium" })
  else []

/-- The state update returned by the Decision stage (the rendered summary
text is omitted: it interpolates uuid/timestamp strings returned by the
external ticket log). -/
structure DecisionOut where
  tickets : List TicketCall
  next : String
  error : Option (List Char)
deriving Repr, DecidableEq

/-- decision_agent.py simple_decision_agent_node (lines 60-181), over the
fields the stage reads from the shared record: inventory_context
(has_low_stock, analysis), weather_context (high_impact, has_rain,
has_heat, region — `none` models a context without the key, read through
.get with default "unknown"), plus the injected exception. -/
def simple_decision_agent_node (has_low_stock : Bool) (inv_analysis : List Char)
    (high_impact has_rain has_heat : Bool) (w_region : Option (List Char))
    (exc : Option (List Char)) : DecisionOut :=
  match exc with
  | some e =>
    { tickets := []
      next := "END"
      error := some (chars "Error: " ++ e) }
  | none =>
    let reorders := decision_reorders has_low_stock high_impact inv_analysis
    let region := w_region.getD (chars "unknown")
    let alerts :=
      (if high_impact && has_rain then [TicketCall.alertRain region] else [])
        ++ (if high_impact && has_heat then [TicketCall.alertHeat region] else [])
    { tickets := reorders.map TicketCall.reorder ++ alerts
      next := "END"
      error := none }

/-- The reorder-ticket invocations among a list of ticket calls. -/
def reorderCallsOf : List TicketCall → List ReorderReq
  | [] => []
  | TicketCall.reorder r :: t => r :: reorderCallsOf t
  | _ :: t => reorderCallsOf t

/-!
### src/tools/weather_tools.py — get_weather_forecast

The mock forecast tables are static data; datetime.now() is an external
input, so the rendered day names (strftime of today plus the day offset)
enter as a parameter `dayName`.  get_weather_impact is left parametric in
the Weather-stage embedding: it averages floating point demand
multipliers, and no claim depends on its text.
-/

/-- Decimal rendering of a number, as Python str() on a non-negative int. -/
def natStr (n : Nat) : List Char := (Nat.repr n).data

/-- One forecast day of MOCK_WEATHER_DATA. -/
structure DayForecast where
  day : Nat
  temp_high : Nat
  temp_low : Nat
  condition : List Char
  rain_prob : Nat
deriving Repr, DecidableEq

/-- One city profile of MOCK_WEATHER_DATA. -/
structure CityWeather where
  cur_temp : Nat
  cur_condition : List Char
  cur_humidity : Nat
  forecast : List DayForecast
deriving Repr, DecidableEq

/-- weather_tools.py lines 39-50: the mumbai profile. -/
def mumbaiWeather : CityWeather :=
  { cur_temp := 32, cur_condition := chars "humid", cur_humidity := 85
    forecast :=
      [⟨1, 33, 27, chars "rain", 80⟩, ⟨2, 31, 26, chars "heavy_rain", 95⟩,
       ⟨3, 30, 25, chars "rain", 70⟩, ⟨4, 32, 26, chars "cloudy", 40⟩,
       ⟨5, 33, 27, chars "clear", 10⟩, ⟨6, 34, 28, chars "hot", 5⟩,
       ⟨7, 35, 28, chars "very_hot", 0⟩] }

/-- weather_tools.py lines 51-62: the delhi profile. -/
def delhiWeather : CityWeather :=
  { cur_temp := 38, cur_condition := chars "very_hot", cur_humidity := 35
    forecast :=
      [⟨1, 40, 28, chars "very_hot", 0⟩, ⟨2, 41, 29, chars "very_hot", 5⟩,
       ⟨3, 39, 28, chars "hot", 10⟩, ⟨4, 38, 27, chars "hot", 15⟩,
       ⟨5, 36, 26, chars "clear", 20⟩, ⟨6, 35, 25, chars "cloudy", 30⟩,
       ⟨7, 34, 25, chars "rain", 60⟩] }

/-- weather_tools.py lines 63-74: the bengaluru profile. -/
def bengaluruWeather : CityWeather :=
  { cur_temp := 26, cur_condition := chars "pleasant", cur_humidity := 65
    forecast :=
      [⟨1, 28, 20, chars "clear", 15⟩, ⟨2, 27, 19, chars "cloudy", 30⟩,
       ⟨3, 26, 19, chars "rain", 65⟩, ⟨4, 25, 18, chars "rain", 55⟩,
       ⟨5, 27, 19, chars "cloudy", 25⟩, ⟨6, 28, 20, chars "clear", 10⟩,
       ⟨7, 29, 20, chars "clear", 5⟩] }

/-- weather_tools.py lines 75-86: the default profile. -/
def defaultWeather : CityWeather :=
  { cur_temp := 30, cur_condition := chars "clear", cur_humidity := 50
    forecast :=
      [⟨1, 31, 22, chars "clear", 10⟩, ⟨2, 32, 23, chars "cloudy", 25⟩,
       ⟨3, 30, 22, chars "rain", 50⟩, ⟨4, 29, 21, chars "clear", 15⟩,
       ⟨5, 31, 22, chars "clear", 5⟩, ⟨6, 33, 24, chars "hot", 0⟩,
       ⟨7, 34, 25, chars "hot", 0⟩] }

/-- weather_tools.py lines 38-87: MOCK_WEATHER_DATA as an association
list (insertion order of the dict). -/
def MOCK_WEATHER_DATA : List (List Char × CityWeather) :=
  [(chars "mumbai", mumbaiWeather), (chars "delhi", delhiWeather),
   (chars "bengaluru", bengaluruWeather), (chars "default", defaultWeather)]

/-- weather_tools.py lines 177-180: normalise the requested region and
fall back to "default" when it is not a key of the table. -/
def region_key_of (region : List Char) : List Char :=
  let k := pyLower (pyStrip region)
  if k ∈ MOCK_WEATHER_DATA.map Prod.fst then k else chars "default"

/-- Lookup of a key known to be present (Python dict indexing after the
membership check; the default profile is returned for the key
"default"). -/
def lookupCity (key : List Char) : CityWeather :=
  ((MOCK_WEATHER_DATA.find? (fun p => p.1 = key)).map Prod.snd).getD defaultWeather

/-- weather_tools.py lines 195, 208: condition.replace('_',' ').title(). -/
def condDisplay (c : List Char) : List Char :=
  pyTitle (c.map (fun ch => if ch = '_' then ' ' else ch))

/-- weather_tools.py lines 210-222: the per-day weather indicator tag. -/
def dayEmoji (cond : List Char) : List Char :=
  if pyIn (chars "rain") cond then chars "[RAIN]"
  else if pyIn (chars "hot") cond then chars "[HOT]"
  else if cond = chars "cold" || cond = chars "very_cold" then chars "[COLD]"
  else if cond = chars "cloudy" then chars "[CLOUD]"
  else chars "[CLEAR]"

/-- weather_tools.py lines 202-228: days whose condition contains "rain"
(counted as rainy in the loop). -/
def rainyDays (fc : List DayForecast) : Nat :=
  (fc.filter (fun d => pyIn (chars "rain") d.condition)).length

/-- weather_tools.py lines 202-228: days counted as hot (the elif branch:
condition contains "hot" but not "rain"). -/
def hotDays (fc : List DayForecast) : Nat :=
  (fc.filter (fun d => !pyIn (chars "rain") d.condition && pyIn (chars "hot") d.condition)).length

/-- weather_tools.py lines 205-228: one forecast-day block. -/
def dayBlock (dayName : Nat → List Char) (d : DayForecast) : List Char :=
  dayEmoji d.condition ++ chars " " ++ dayName d.day ++ chars ": "
    ++ condDisplay d.condition ++ chars "\n"
    ++ chars "   High: " ++ natStr d.temp_high ++ chars "C | Low: "
    ++ natStr d.temp_low ++ chars "C\n"
    ++ chars "   Rain Probability: " ++ natStr d.rain_prob ++ chars "%\n\n"

/-- weather_tools.py lines 189-201: the header and current-conditions
part of the forecast text. -/
def forecastHead (region : List Char) (w : CityWeather) (days : Nat) : List Char :=
  chars "[WEATHER] Weather Forecast for " ++ pyTitle region ++ chars "\n"
    ++ List.replicate 40 '=' ++ chars "\n\n"
    ++ chars "[CURRENT] Current Conditions:\n"
    ++ chars "   Temperature: " ++ natStr w.cur_temp ++ chars "C\n"
    ++ chars "   Condition: " ++ condDisplay w.cur_condition ++ chars "\n"
    ++ chars "   Humidity: " ++ natStr w.cur_humidity ++ chars "%\n\n"
    ++ chars "[FORECAST] " ++ natStr days ++ chars "-Day Forecast:\n"
    ++ List.replicate 40 '-' ++ chars "\n"

/-- weather_tools.py lines 231-238: the summary part of the forecast
text. -/
def forecastSummary (fc : List DayForecast) : List Char :=
  chars "[SUMMARY]:\n"
    ++ chars "   Rainy Days: " ++ natStr (rainyDays fc) ++ chars "/"
    ++ natStr fc.length ++ chars "\n"
    ++ chars "   Hot Days: " ++ natStr (hotDays fc) ++ chars "/"
    ++ natStr fc.length ++ chars "\n"
    ++ (if rainyDays fc ≥ 3 then
          chars "   [!] ALERT: Extended rain period expected - stock up on rain gear!\n"
        else [])
    ++ (if hotDays fc ≥ 3 then
          chars "   [!] ALERT: Heat wave expected - increase summer wear inventory!\n"
        else [])

/-- Concatenation of the rendered day blocks, in order. -/
def dayBlocks (dayName : Nat → List Char) : List DayForecast → List Char
  | [] => []
  | d :: t => dayBlock dayName d ++ dayBlocks dayName t

/-- weather_tools.py get_weather_forecast (lines 162-240): the full tool
output for a region and day count. -/
def get_weather_forecast_text (region : List Char) (dayName : Nat → List Char)
    (days : Nat) : List Char :=
  let w := lookupCity (region_key_of region)
  let fc := w.forecast.take (min days 7)
  forecastHead region w days ++ dayBlocks dayName fc ++ forecastSummary fc

/-- The Weather stage as wired in the agent: the forecast tool is invoked
with the resolved region and days=7 (weather_agent.py line 96); the
impact tool output stays parametric. -/
def weather_stage_run (query : List Char) (region : Option (List Char))
    (dayName : Nat → List Char) (impact : List Char) (exc : Option (List Char)) :
    WeatherOut :=
  simple_weather_agent_node query region
    (get_weather_forecast_text (resolve_region region query) dayName 7) impact exc

/-!
### The run loop

The LangGraph engine that drives the compiled graph is an external
library.  Its driver loop is modelled from the spec: the Router invokes
the entry node, then repeatedly follows `graph_step` on the `next` value
the previous node wrote, until the finish node or the step budget
(config recursion_limit, run_query lines 323-327) is exhausted.  The
per-node `next` values are abstracted as a function of the node, and
each stage node appends one message to the accumulated history
(msg_count), matching the AIMessage each agent returns.
-/

/-- Modelled from the spec: the engine driver loop (the LangGraph
invoke machinery is not part of this repository).  Returns the sequence
of executed nodes, stopping at the finish node or when the step budget
runs out. -/
def run_trace (outs : GNode → Option String) : Nat → GNode → List GNode
  | 0, _ => []
  | fuel + 1, n =>
    n :: (if n = GNode.endN then [] else run_trace outs fuel (graph_step n (outs n)))

/-- Messages appended to the history by one node: each agent node returns
one AIMessage, start and end append none. -/
def msg_count : GNode → Nat
  | .data => 1
  | .weather => 1
  | .decision => 1
  | _ => 0

/-- Length of the accumulated message history after a run: the initial
HumanMessage plus one AIMessage per executed agent node. -/
def history_len (trace : List GNode) : Nat :=
  1 + (trace.map msg_count).sum

/-!
## Theorems
-/

/-- C1: every run transitions from the Decision stage only to END — both
the success branch and the error branch of the Decision stage return
next = "END", and the compiled graph's edge out of the decision node
goes unconditionally to the end node, never to Data or Weather. -/
theorem decision_always_to_end (has_low_stock : Bool) (inv_analysis : List Char)
    (high_impact has_rain has_heat : Bool) (w_region : Option (List Char))
    (exc : Option (List Char)) (nxt : Option String) :
    (simple_decision_agent_node has_low_stock inv_analysis high_impact has_rain
        has_heat w_region exc).next = "END" ∧
    graph_step GNode.decision nxt = GNode.endN := by
  constructor
  · cases exc <;> rfl
  · rfl

/-- C2: entry classification of start_node routes by keyword precedence
over the lowercased request text: any weather keyword sends the run
straight to WEATHER; otherwise a decision keyword sends it to DATA;
otherwise DATA is the default. -/
theorem start_entry_classification (query : List Char) :
    ((∃ kw ∈ weather_keywords, kw <:+: pyLower query) →
      start_node_next query = "WEATHER") ∧
    ((¬ ∃ kw ∈ weather_keywords, kw <:+: pyLower query) →
      (∃ kw ∈ decision_keywords, kw <:+: pyLower query) →
      start_node_next query = "DATA") ∧
    ((¬ ∃ kw ∈ weather_keywords, kw <:+: pyLower query) →
      (¬ ∃ kw ∈ decision_keywords, kw <:+: pyLower query) →
      start_node_next query = "DATA") := by
  refine ⟨?_, ?_, ?_⟩
  · intro h
    have hw : anyKw weather_keywords (pyLower query) = true := anyKw_iff.mpr h
    simp [start_node_next, hw]
  · intro h _
    have hw : anyKw weather_keywords (pyLower query) = false := by
      cases hc : anyKw weather_keywords (pyLower query)
      · rfl
      · exact absurd (anyKw_iff.mp hc) h
    simp [start_node_next, hw]
  · intro h _
    have hw : anyKw weather_keywords (pyLower query) = false := by
      cases hc : anyKw weather_keywords (pyLower query)
      · rfl
      · exact absurd (anyKw_iff.mp hc) h
    simp [start_node_next, hw]

/-- C2 witness: the concrete request "weather or not" carries a weather
keyword and enters at WEATHER. -/
theorem start_entry_classification_witness :
    start_node_next (chars "weather or not") = "WEATHER" :=
  (start_entry_classification (chars "weather or not")).1 (by decide)

/-- C3 counterexample: at the routing point out of the Data stage, the
next value "BOGUS" — outside the enumerated set — is mapped to the end
node, not to DATA as the claim states. -/
theorem route_unrecognized_counterexample :
    ("BOGUS" ∉ VALID_ROUTES) ∧ route_from_data (some "BOGUS") = "end" ∧
      route_from_data (some "BOGUS") ≠ "data" ∧
      route_from_data (some "BOGUS") ≠ "DATA" := by
  refine ⟨by decide, rfl, by decide, by decide⟩

/-- C3 (amended): every routing function is total and returns a key of
its edge dictionary, so an unrecognized next value never crashes the
router; but only the start router and the supervisor validator default
an unrecognized value toward DATA — the routers out of the Data and
Weather stages map it to the end node. -/
theorem routing_validation :
    (∀ nxt : Option String,
      route_from_start nxt ∈ ["data", "weather", "decision"] ∧
      route_from_data nxt ∈ ["weather", "decision", "end"] ∧
      route_from_weather nxt ∈ ["decision", "end"] ∧
      route_from_decision nxt = "end") ∧
    (∀ r : String, normalize_route r ∈ VALID_ROUTES) ∧
    (∀ t : List Char, parse_fallback_route t ∈ VALID_ROUTES) ∧
    (∀ r : String, pyUpperS r ∉ VALID_ROUTES →
      normalize_route r = "DATA" ∧ route_from_start (some r) = "data" ∧
      route_from_data (some r) = "end" ∧ route_from_weather (some r) = "end") := by
  refine ⟨?_, ?_, ?_, ?_⟩
  · intro nxt
    refine ⟨?_, ?_, ?_, rfl⟩ <;>
      simp only [route_from_start, route_from_data, route_from_weather] <;>
      split_ifs <;> decide
  · intro r
    simp only [normalize_route]
    split_ifs with h
    · exact h
    · decide
  · intro t
    simp only [parse_fallback_route]
    split_ifs <;> decide
  · intro r hbad
    have h1 : r ≠ "WEATHER" := by rintro rfl; exact hbad (by decide)
    have h2 : r ≠ "DECISION" := by rintro rfl; exact hbad (by decide)
    refine ⟨?_, ?_, ?_, ?_⟩
    · simp [normalize_route, hbad]
    · simp [route_from_start, h1, h2]
    · simp [route_from_data, h1, h2]
    · simp [route_from_weather, h2]

/-- C3 witness: the amended default behavior at the concrete
unrecognized value "NONSENSE". -/
theorem routing_validation_witness :
    normalize_route "NONSENSE" = "DATA" ∧
    route_from_start (some "NONSENSE") = "data" ∧
    route_from_data (some "NONSENSE") = "end" ∧
    route_from_weather (some "NONSENSE") = "end" :=
  routing_validation.2.2.2 "NONSENSE" (by decide)

/-- C5: on a successful Weather stage run the weather_context flags are
substring searches over the combined forecast-plus-impact text:
high_impact holds exactly when the text contains the literal
"HIGH DEMAND" (case-sensitive) or the substring "2."; has_rain exactly
when it contains "rain" case-insensitively; has_heat exactly when it
contains "hot" or "heat" case-insensitively; has_cold exactly when it
contains "cold" case-insensitively. -/
theorem weather_flags_spec (query : List Char) (region : Option (List Char))
    (forecast impact : List Char) :
    ((simple_weather_agent_node query region forecast impact none).high_impact = true ↔
      (chars "HIGH DEMAND" <:+: forecast ++ chars "\n\n" ++ impact ∨
        chars "2." <:+: forecast ++ chars "\n\n" ++ impact)) ∧
    ((simple_weather_agent_node query region forecast impact none).has_rain = true ↔
      chars "rain" <:+: pyLower (forecast ++ chars "\n\n" ++ impact)) ∧
    ((simple_weather_agent_node query region forecast impact none).has_heat = true ↔
      (chars "hot" <:+: pyLower (forecast ++ chars "\n\n" ++ impact) ∨
        chars "heat" <:+: pyLower (forecast ++ chars "\n\n" ++ impact))) ∧
    ((simple_weather_agent_node query region forecast impact none).has_cold = true ↔
      chars "cold" <:+: pyLower (forecast ++ chars "\n\n" ++ impact)) := by
  simp only [simple_weather_agent_node, Bool.or_eq_true, pyIn_iff]
  exact ⟨trivial, trivial, trivial, trivial⟩

/-- C6 counterexample: an exception inside the Weather stage yields a
record with error set but with next = "DECISION", not the END the claim
states for every stage. -/
theorem stage_error_counterexample :
    (simple_weather_agent_node (chars "q") none (chars "f") (chars "i")
        (some (chars "boom"))).error = some (chars "Error: boom") ∧
    (simple_weather_agent_node (chars "q") none (chars "f") (chars "i")
        (some (chars "boom"))).next = "DECISION" ∧
    ("DECISION" : String) ≠ "END" := by
  refine ⟨rfl, rfl, by decide⟩

/-- C6 (amended): no stage propagates an internal exception — each
returns a record with error set to the exception message; the Data and
Decision stages force next = "END", while the Weather stage instead
suggests next = "DECISION" on failure. -/
theorem stage_error_handling (query low_stock weather_sensitive forecast impact
    inv_analysis e : List Char) (by_category : List Char → List Char)
    (has_low_stock high_impact has_rain has_heat : Bool)
    (region w_region : Option (List Char)) :
    (simple_data_agent_node query low_stock by_category weather_sensitive
        (some e)).error = some (chars "Error: " ++ e) ∧
    (simple_data_agent_node query low_stock by_category weather_sensitive
        (some e)).next = "END" ∧
    (simple_decision_agent_node has_low_stock inv_analysis high_impact has_rain
        has_heat w_region (some e)).error = some (chars "Error: " ++ e) ∧
    (simple_decision_agent_node has_low_stock inv_analysis high_impact has_rain
        has_heat w_region (some e)).next = "END" ∧
    (simple_weather_agent_node query region forecast impact (some e)).error
        = some (chars "Error: " ++ e) ∧
    (simple_weather_agent_node query region forecast impact (some e)).next
        = "DECISION" :=
  ⟨rfl, rfl, rfl, rfl, rfl, rfl⟩

/-- C7: an internal failure of the Weather stage sets error and suggests
next = "DECISION" — unlike the Data and Decision stages, which suggest
"END" on failure — so a request that reached Weather still proceeds to
the Decision stage. -/
theorem weather_failure_routes_decision (query forecast impact e low_stock
    weather_sensitive inv_analysis : List Char) (by_category : List Char → List Char)
    (region w_region : Option (List Char))
    (has_low_stock high_impact has_rain has_heat : Bool) :
    (simple_weather_agent_node query region forecast impact (some e)).next
        = "DECISION" ∧
    (simple_weather_agent_node query region forecast impact (some e)).error
        = some (chars "Error: " ++ e) ∧
    ("DECISION" : String) ≠ "END" ∧
    (simple_data_agent_node query low_stock by_category weather_sensitive
        (some e)).next = "END" ∧
    (simple_decision_agent_node has_low_stock inv_analysis high_impact has_rain
        has_heat w_region (some e)).next = "END" :=
  ⟨rfl, rfl, by decide, rfl, rfl⟩

/-- C8: on a successful Data stage run the suggested next stage is
WEATHER when the request contains a weather-asking keyword and weather
items were found; otherwise DECISION when the request contains a
recommendation keyword and low stock exists; otherwise END. -/
theorem data_next_suggestion (query low_stock weather_sensitive : List Char)
    (by_category : List Char → List Char) :
    (((∃ kw ∈ data_weather_keywords, kw <:+: pyLower query) ∧
        (simple_data_agent_node query low_stock by_category weather_sensitive
          none).has_weather_items = true) →
      (simple_data_agent_node query low_stock by_category weather_sensitive
        none).next = "WEATHER") ∧
    ((¬ ((∃ kw ∈ data_weather_keywords, kw <:+: pyLower query) ∧
        (simple_data_agent_node query low_stock by_category weather_sensitive
          none).has_weather_items = true)) →
      ((∃ kw ∈ data_rec_keywords, kw <:+: pyLower query) ∧
        (simple_data_agent_node query low_stock by_category weather_sensitive
          none).has_low_stock = true) →
      (simple_data_agent_node query low_stock by_category weather_sensitive
        none).next = "DECISION") ∧
    ((¬ ((∃ kw ∈ data_weather_keywords, kw <:+: pyLower query) ∧
        (simple_data_agent_node query low_stock by_category weather_sensitive
          none).has_weather_items = true)) →
      (¬ ((∃ kw ∈ data_rec_keywords, kw <:+: pyLower query) ∧
        (simple_data_agent_node query low_stock by_category weather_sensitive
          none).has_low_stock = true)) →
      (simple_data_agent_node query low_stock by_category weather_sensitive
        none).next = "END") := by
  have hn : (simple_data_agent_node query low_stock by_category weather_sensitive
      none).next =
      (if anyKw data_weather_keywords (pyLower query)
            && (simple_data_agent_node query low_stock by_category weather_sensitive
              none).has_weather_items then "WEATHER"
       else if anyKw data_rec_keywords (pyLower query)
            && (simple_data_agent_node query low_stock by_category weather_sensitive
              none).has_low_stock then "DECISION"
       else "END") := rfl
  refine ⟨?_, ?_, ?_⟩
  · rintro ⟨hkw, hwi⟩
    rw [hn, anyKw_iff.mpr hkw, hwi]
    rfl
  · rintro hnot ⟨hrk, hls⟩
    have hc1 : (anyKw data_weather_keywords (pyLower query)
        && (simple_data_agent_node query low_stock by_category weather_sensitive
          none).has_weather_items) = false := by
      cases h1 : anyKw data_weather_keywords (pyLower query)
      · rfl
      · cases h2 : (simple_data_agent_node query low_stock by_category
            weather_sensitive none).has_weather_items
        · rfl
        · exact absurd ⟨anyKw_iff.mp h1, h2⟩ hnot
    rw [hn, hc1, anyKw_iff.mpr hrk, hls]
    rfl
  · intro hnot1 hnot2
    have hc1 : (anyKw data_weather_keywords (pyLower query)
        && (simple_data_agent_node query low_stock by_category weather_sensitive
          none).has_weather_items) = false := by
      cases h1 : anyKw data_weather_keywords (pyLower query)
      · rfl
      · cases h2 : (simple_data_agent_node query low_stock by_category
            weather_sensitive none).has_weather_items
        · rfl
        · exact absurd ⟨anyKw_iff.mp h1, h2⟩ hnot1
    have hc2 : (anyKw data_rec_keywords (pyLower query)
        && (simple_data_agent_node query low_stock by_category weather_sensitive
          none).has_low_stock) = false := by
      cases h1 : anyKw data_rec_keywords (pyLower query)
      · rfl
      · cases h2 : (simple_data_agent_node query low_stock by_category
            weather_sensitive none).has_low_stock
        · rfl
        · exact absurd ⟨anyKw_iff.mp h1, h2⟩ hnot2
    rw [hn, hc1, hc2]
    rfl

/-- C8 witness: the concrete request "weather" with one-line tool outputs
asks about weather, finds weather items, and is routed to WEATHER. -/
theorem data_next_suggestion_witness :
    ((∃ kw ∈ data_weather_keywords, kw <:+: pyLower (chars "weather")) ∧
      (simple_data_agent_node (chars "weather") (chars "x") (fun _ => [])
        (chars "y") none).has_weather_items = true) ∧
    (simple_data_agent_node (chars "weather") (chars "x") (fun _ => [])
      (chars "y") none).next = "WEATHER" :=
  ⟨by decide, (data_next_suggestion (chars "weather") (chars "x") (chars "y")
    (fun _ => [])).1 (by decide)⟩

theorem reorderCallsOf_map_app (rs : List ReorderReq) (al : List TicketCall) :
    reorderCallsOf (rs.map TicketCall.reorder ++ al) = rs ++ reorderCallsOf al := by
  induction rs with
  | nil => simp
  | cons r t ih => simp [reorderCallsOf, ih]

theorem reorderCallsOf_alerts (b1 b2 : Bool) (reg : List Char) :
    reorderCallsOf ((if b1 then [TicketCall.alertRain reg] else [])
      ++ (if b2 then [TicketCall.alertHeat reg] else [])) = [] := by
  cases b1 <;> cases b2 <;> rfl

/-- C4: with has_low_stock set and a non-empty analysis blob, the
Decision stage creates at most 5 reorder tickets — one per regex match
of the SKU pattern, in text order — and each ticket's priority is
"high" exactly when high_impact holds and the blob contains one of the
weather category keywords case-insensitively, else "medium". -/
theorem decision_reorder_spec (high_impact has_rain has_heat : Bool)
    (w_region : Option (List Char)) (inv_analysis : List Char)
    (hne : inv_analysis ≠ []) :
    (reorderCallsOf (simple_decision_agent_node true inv_analysis high_impact
        has_rain has_heat w_region none).tickets).length ≤ 5 ∧
    (reorderCallsOf (simple_decision_agent_node true inv_analysis high_impact
        has_rain has_heat w_region none).tickets).length
      = min 5 (re_findall_sku inv_analysis).length ∧
    (reorderCallsOf (simple_decision_agent_node true inv_analysis high_impact
        has_rain has_heat w_region none).tickets).map ReorderReq.sku_id
      = ((re_findall_sku inv_analysis).take 5).map Prod.fst ∧
    ∀ t ∈ reorderCallsOf (simple_decision_agent_node true inv_analysis high_impact
        has_rain has_heat w_region none).tickets,
      (t.priority = chars "high" ↔
        (high_impact = true ∧
          ∃ c ∈ decision_weather_cats, c <:+: pyLower inv_analysis)) ∧
      (t.priority = chars "high" ∨ t.priority = chars "medium") := by
  have hne' : inv_analysis.isEmpty = false := by
    cases inv_analysis
    · exact absurd rfl hne
    · rfl
  have hcalls : reorderCallsOf (simple_decision_agent_node true inv_analysis
      high_impact has_rain has_heat w_region none).tickets
      = decision_reorders true high_impact inv_analysis := by
    show reorderCallsOf ((decision_reorders true high_impact inv_analysis).map
        TicketCall.reorder ++ _) = _
    rw [reorderCallsOf_map_app, reorderCallsOf_alerts, List.append_nil]
  have hrs : decision_reorders true high_impact inv_analysis
      = ((re_findall_sku inv_analysis).take 5).map (fun m =>
          let weather_priority :=
            high_impact && anyKw decision_weather_cats (pyLower inv_analysis)
          { sku_id := m.1
            sku_name := (pyStrip (m.2.takeWhile (fun ch => ch ≠ '\n'))).take 50
            quantity := 100
            supplier_name := chars "Default Supplier"
            reason :=
              if weather_priority then
                chars "Low stock + weather-driven demand expected"
              else chars "Below reorder point"
            priority := if weather_priority then chars "high"
              else chars "medium" }) := by
    simp [decision_reorders, hne']
  rw [hcalls, hrs]
  refine ⟨?_, ?_, ?_, ?_⟩
  · rw [List.length_map, List.length_take]
    exact min_le_left _ _
  · rw [List.length_map, List.length_take]
  · rw [List.map_map]
    rfl
  · intro t ht
    obtain ⟨m, hm, rfl⟩ := List.mem_map.mp ht
    simp only
    constructor
    · cases hb : (high_impact && anyKw decision_weather_cats (pyLower inv_analysis))
      · simp only [hb, if_neg (by simp : ¬ (false : Bool) = true)]
        constructor
        · intro hmed
          exact absurd hmed (by decide)
        · rintro ⟨hhi, hcat⟩
          rw [hhi] at hb
          rw [anyKw_iff.mpr hcat] at hb
          exact absurd hb (by decide)
      · simp only [hb, if_pos rfl]
        rw [Bool.and_eq_true] at hb
        exact ⟨fun _ => ⟨hb.1, anyKw_iff.mp hb.2⟩, fun _ => rfl⟩
    · cases hb : (high_impact && anyKw decision_weather_cats (pyLower inv_analysis)) <;>
        simp [hb]

/-- C4 witness: the inventory blob of the decision module's own test
stanza, under high weather impact, yields one reorder ticket with
priority "high". -/
theorem decision_reorder_spec_witness :
    chars "UMB_001: Classic Umbrella - LOW STOCK (45 units, reorder at 100)"
        ≠ [] ∧
    ((reorderCallsOf (simple_decision_agent_node true
        (chars "UMB_001: Classic Umbrella - LOW STOCK (45 units, reorder at 100)")
        true true false none none).tickets).length ≤ 5 ∧
      (reorderCallsOf (simple_decision_agent_node true
        (chars "UMB_001: Classic Umbrella - LOW STOCK (45 units, reorder at 100)")
        true true false none none).tickets).length
        = min 5 (re_findall_sku
            (chars "UMB_001: Classic Umbrella - LOW STOCK (45 units, reorder at 100)")).length ∧
      (reorderCallsOf (simple_decision_agent_node true
        (chars "UMB_001: Classic Umbrella - LOW STOCK (45 units, reorder at 100)")
        true true false none none).tickets).map ReorderReq.sku_id
        = ((re_findall_sku
            (chars "UMB_001: Classic Umbrella - LOW STOCK (45 units, reorder at 100)")).take
              5).map Prod.fst ∧
      ∀ t ∈ reorderCallsOf (simple_decision_agent_node true
          (chars "UMB_001: Classic Umbrella - LOW STOCK (45 units, reorder at 100)")
          true true false none none).tickets,
        (t.priority = chars "high" ↔
          (true = true ∧ ∃ c ∈ decision_weather_cats, c <:+: pyLower
            (chars "UMB_001: Classic Umbrella - LOW STOCK (45 units, reorder at 100)"))) ∧
        (t.priority = chars "high" ∨ t.priority = chars "medium")) :=
  ⟨by decide, decision_reorder_spec true true false none
    (chars "UMB_001: Classic Umbrella - LOW STOCK (45 units, reorder at 100)")
    (by decide)⟩

/-- Topological rank of the workflow nodes: every edge of the compiled
graph strictly increases it. -/
def nodeRank : GNode → Nat
  | .start => 0
  | .data => 1
  | .weather => 2
  | .decision => 3
  | .endN => 4

theorem nodeRank_le (n : GNode) : nodeRank n ≤ 4 := by
  cases n <;> simp [nodeRank]

theorem graph_step_rank (n : GNode) (h : n ≠ GNode.endN) (nxt : Option String) :
    nodeRank n < nodeRank (graph_step n nxt) := by
  cases n with
  | endN => exact absurd rfl h
  | start => simp only [graph_step]; split <;> decide
  | data => simp only [graph_step]; split <;> decide
  | weather => simp only [graph_step]; split <;> decide
  | decision => simp [graph_step, nodeRank]

theorem getLast?_cons_of_some {l : List GNode} {a x : GNode}
    (h : l.getLast? = some x) : (a :: l).getLast? = some x := by
  cases l with
  | nil => simp at h
  | cons b t => rw [List.getLast?_cons_cons]; exact h

theorem run_trace_reaches (outs : GNode → Option String) :
    ∀ fuel n, 5 - nodeRank n ≤ fuel →
      (run_trace outs fuel n).getLast? = some GNode.endN ∧
      (run_trace outs fuel n).length ≤ 5 - nodeRank n := by
  intro fuel
  induction fuel with
  | zero =>
    intro n h
    have := nodeRank_le n
    omega
  | succ f ih =>
    intro n h
    by_cases hn : n = GNode.endN
    · subst hn
      simp [run_trace, nodeRank]
    · rw [run_trace, if_neg hn]
      have hr := graph_step_rank n hn (outs n)
      have hb := nodeRank_le (graph_step n (outs n))
      have hle : 5 - nodeRank (graph_step n (outs n)) ≤ f := by omega
      obtain ⟨h1, h2⟩ := ih (graph_step n (outs n)) hle
      refine ⟨getLast?_cons_of_some h1, ?_⟩
      rw [List.length_cons]
      omega

theorem sum_map_le_length (l : List GNode) : (l.map msg_count).sum ≤ l.length := by
  induction l with
  | nil => simp
  | cons a t ih =>
    rw [List.map_cons, List.sum_cons, List.length_cons]
    have : msg_count a ≤ 1 := by cases a <;> simp [msg_count]
    omega

/-- C9: under the modelled engine loop, a run from the start node
executes at most 5 nodes for any per-node routing outputs — well within
the configured step budget (recursion_limit, default 25) — so the
accumulated history stays below the budget, and the run always
terminates at the end node rather than looping forever. -/
theorem run_step_bound (outs : GNode → Option String) :
    (run_trace outs RECURSION_LIMIT GNode.start).length ≤ 5 ∧
    (run_trace outs RECURSION_LIMIT GNode.start).length ≤ RECURSION_LIMIT ∧
    history_len (run_trace outs RECURSION_LIMIT GNode.start) ≤ RECURSION_LIMIT ∧
    (run_trace outs RECURSION_LIMIT GNode.start).getLast? = some GNode.endN := by
  obtain ⟨h1, h2⟩ :=
    run_trace_reaches outs RECURSION_LIMIT GNode.start (by decide)
  have h3 := sum_map_le_length (run_trace outs RECURSION_LIMIT GNode.start)
  have h2' : (run_trace outs RECURSION_LIMIT GNode.start).length ≤ 5 := by
    simpa [nodeRank] using h2
  have hRL : (6 : Nat) ≤ RECURSION_LIMIT := by decide
  refine ⟨h2', by omega, ?_, h1⟩
  unfold history_len
  omega

theorem lower_infix_mono {n m : List Char} (h : n <:+: m) :
    pyLower n <:+: pyLower m := by
  obtain ⟨s, t, e⟩ := h
  exact ⟨pyLower s, pyLower t, by rw [← e]; simp [pyLower]⟩

theorem take_ne_nil_of_pos {α : Type} (n : Nat) (l : List α) (hl : l ≠ [])
    (hn : 0 < n) : List.take n l ≠ [] := by
  cases l with
  | nil => exact absurd rfl hl
  | cons a t =>
    cases n with
    | zero => omega
    | succ m => simp [List.take]

theorem lookupCity_forecast_ne_nil (key : List Char) :
    (lookupCity key).forecast ≠ [] := by
  unfold lookupCity
  cases h : MOCK_WEATHER_DATA.find? (fun p => p.1 = key) with
  | none => simp [defaultWeather]
  | some p =>
    have hmem := List.mem_of_find?_eq_some h
    simp only [MOCK_WEATHER_DATA, List.mem_cons, List.not_mem_nil, or_false] at hmem
    rcases hmem with rfl | rfl | rfl | rfl <;>
      simp [mumbaiWeather, delhiWeather, bengaluruWeather, defaultWeather]

theorem rain_prob_in_dayBlock (dayName : Nat → List Char) (d : DayForecast) :
    chars "Rain Probability" <:+: dayBlock dayName d := by
  unfold dayBlock
  apply inf_app_right
  apply inf_app_right
  apply inf_app_left
  decide

theorem rain_prob_in_forecast (region : List Char) (dayName : Nat → List Char) :
    chars "Rain Probability" <:+: get_weather_forecast_text region dayName 7 := by
  have hfc : (lookupCity (region_key_of region)).forecast.take (min 7 7) ≠ [] :=
    take_ne_nil_of_pos (min 7 7) (lookupCity (region_key_of region)).forecast
      (lookupCity_forecast_ne_nil (region_key_of region)) (by decide)
  obtain ⟨d, rest, hcons⟩ := List.exists_cons_of_ne_nil hfc
  show chars "Rain Probability" <:+:
    forecastHead region (lookupCity (region_key_of region)) 7
      ++ dayBlocks dayName ((lookupCity (region_key_of region)).forecast.take (min 7 7))
      ++ forecastSummary ((lookupCity (region_key_of region)).forecast.take (min 7 7))
  rw [hcons]
  apply inf_app_right
  apply inf_app_left
  rw [dayBlocks]
  exact inf_app_right _ (rain_prob_in_dayBlock dayName d)

theorem weather_has_rain_proj (query forecast impact : List Char)
    (region : Option (List Char)) :
    (simple_weather_agent_node query region forecast impact none).has_rain
      = pyIn (chars "rain") (pyLower (forecast ++ chars "\n\n" ++ impact)) := rfl

/-- C10: for every region and every successful Weather stage run, the
has_rain flag is true: the forecast tool output always contains the line
prefix "Rain Probability", so the case-insensitive substring search for
"rain" matches regardless of the actual conditions or of the impact tool
output. -/
theorem weather_has_rain_always (query impact : List Char)
    (region : Option (List Char)) (dayName : Nat → List Char) :
    chars "Rain Probability" <:+:
        get_weather_forecast_text (resolve_region region query) dayName 7 ∧
    (weather_stage_run query region dayName impact none).has_rain = true := by
  have hrp := rain_prob_in_forecast (resolve_region region query) dayName
  refine ⟨hrp, ?_⟩
  have hlow : chars "rain" <:+:
      pyLower (get_weather_forecast_text (resolve_region region query) dayName 7) :=
    List.IsInfix.trans (by decide : chars "rain" <:+: pyLower (chars "Rain Probability"))
      (lower_infix_mono hrp)
  unfold weather_stage_run
  rw [weather_has_rain_proj]
  apply pyIn_iff.mpr
  have : pyLower (get_weather_forecast_text (resolve_region region query) dayName 7
      ++ chars "\n\n" ++ impact)
      = pyLower (get_weather_forecast_text (resolve_region region query) dayName 7)
        ++ pyLower (chars "\n\n" ++ impact) := by
    simp [pyLower]
  rw [this]
  exact inf_app_right _ hlow

end Inventra
